import Mathlib

/-!
# Theme controller of `planner/static/planner/theme.js`

A shallow embedding of the script. The script is one immediately invoked
function that

* looks up the toggle button (`btn`, possibly `null`),
* defines `apply(theme)`,
* computes `saved`, `prefersLight` and `initial`, and calls `apply(initial)`,
* registers a click listener on the button when the button exists.

The browser objects the script talks to are modelled as plain data:

* `localStorage` is an association list from keys to values together with
  the log of the calls made on it;
* the root element is reduced to its `data-theme` attribute
  (`none` when `getAttribute` returns `null`);
* the button, when present, is its `textContent` and its click listeners;
* `window.matchMedia` is an optional function from a media query to the
  `matches` field of the result.

JavaScript strings are modelled as `String`; a string is truthy exactly when
it is non-empty, `null` and `undefined` are falsy. Host exceptions (a storage
that refuses access or is full) are outside this model.
-/

namespace ThemeJs

/-! ## The persisted store -/

/-- Calls of the `Storage` interface, as recorded in the call log. -/
inductive StorageCall where
  | getItem (k : String)
  | setItem (k v : String)
  | removeItem (k : String)
  | clear
deriving DecidableEq, Repr

/-- Lookup in the entries of a store: the first entry with the given key. -/
def lookupItem : List (String × String) → String → Option String
  | [], _ => none
  | (k1, v1) :: rest, k => if k1 = k then some v1 else lookupItem rest k

/-- Write into the entries of a store: an existing entry is overwritten in
place, a new key is added at the end. -/
def writeItem : List (String × String) → String → String → List (String × String)
  | [], k, v => [(k, v)]
  | (k1, v1) :: rest, k, v =>
      if k1 = k then (k, v) :: rest else (k1, v1) :: writeItem rest k v

/-- The origin's `localStorage`: its entries and the log of calls made on it
(oldest call first). -/
structure LocalStorage where
  items : List (String × String)
  calls : List StorageCall
deriving DecidableEq, Repr

/-- The call `localStorage.getItem(k)`: the value (`none` for `null`) and the
store afterwards, which differs only by the logged call. -/
def LocalStorage.getItem (ls : LocalStorage) (k : String) : Option String × LocalStorage :=
  (lookupItem ls.items k, { ls with calls := ls.calls ++ [StorageCall.getItem k] })

/-- The call `localStorage.setItem(k, v)`. -/
def LocalStorage.setItem (ls : LocalStorage) (k v : String) : LocalStorage :=
  { items := writeItem ls.items k v, calls := ls.calls ++ [StorageCall.setItem k v] }

/-- The value currently held under a key, without making a call. -/
def LocalStorage.peek (ls : LocalStorage) (k : String) : Option String :=
  lookupItem ls.items k

/-! ## The page -/

/-- The listeners this script can register: the arrow function passed to
`btn.addEventListener("click", ...)`. -/
inductive Listener where
  | themeToggle
deriving DecidableEq, Repr

/-- The element with id `themeToggle`, when it exists. -/
structure Button where
  textContent : String
  clickListeners : List Listener
deriving DecidableEq, Repr

/-- The part of the browser state the script reads or writes. -/
structure Page where
  /-- value of `root.getAttribute("data-theme")`, `none` for `null` -/
  dataTheme : Option String
  /-- result of `document.getElementById("themeToggle")`, `none` for `null` -/
  btn : Option Button
  localStorage : LocalStorage
  /-- the function `window.matchMedia`, `none` when it is undefined; the
  result is reduced to its `matches` field -/
  matchMedia : Option (String → Bool)

/-! ## JavaScript operators used by the script -/

/-- The expression `x || d` for `x` a string or `null` and `d` a string:
`d` when `x` is `null` or the empty string, `x` otherwise. -/
def orElse (x : Option String) (d : String) : String :=
  match x with
  | none => d
  | some s => if s = "" then d else s

/-- Truthiness of `f && f(q).matches`, where `none` stands for `undefined`. -/
def truthy (x : Option Bool) : Bool :=
  match x with
  | none => false
  | some b => b

/-! ## The script -/

/-- The constant `key`. -/
def key : String := "app-theme"

/-- The function `apply(theme)`. -/
def apply (p : Page) (theme : String) : Page :=
  let p1 : Page := { p with dataTheme := some theme }
  match p1.btn with
  | some b =>
      { p1 with btn := some { b with textContent := if theme = "light" then "☀️ Тема" else "🌙 Тема" } }
  | none => p1

/-- The constant `prefersLight`: `undefined` (`none`) when `window.matchMedia`
is undefined, the `matches` field of the query result otherwise. -/
def prefersLight (p : Page) : Option Bool :=
  match p.matchMedia with
  | none => none
  | some f => some (f "(prefers-color-scheme: light)")

/-- The constant `initial`, computed from the value `saved` read from the
store. -/
def initial (p : Page) : String :=
  let saved := (p.localStorage.getItem key).1
  orElse saved (if truthy (prefersLight p) then "light" else "dark")

/-- The click listener registered on the button (the toggle). -/
def toggle (p : Page) : Page :=
  let current := orElse p.dataTheme "dark"
  let next := if current = "dark" then "light" else "dark"
  let p1 : Page := { p with localStorage := p.localStorage.setItem key next }
  apply p1 next

/-- The whole script, run once when the page loads. -/
def main (p : Page) : Page :=
  let r := p.localStorage.getItem key
  let saved := r.1
  let p1 : Page := { p with localStorage := r.2 }
  let initial := orElse saved (if truthy (prefersLight p1) then "light" else "dark")
  let p2 := apply p1 initial
  match p2.btn with
  | some b =>
      { p2 with btn := some { b with clickListeners := b.clickListeners ++ [Listener.themeToggle] } }
  | none => p2

/-- Running a registered listener. -/
def runListener (l : Listener) (p : Page) : Page :=
  match l with
  | Listener.themeToggle => toggle p

/-- A user click on the toggle button: every click listener of the button
runs, in registration order. Without a button there is nothing to click. -/
def click (p : Page) : Page :=
  match p.btn with
  | none => p
  | some b => b.clickListeners.foldl (fun q l => runListener l q) p

/-- Whether the toggle can be triggered on this page: the button exists and
the toggle listener is registered on it. -/
def toggleAvailable (p : Page) : Bool :=
  match p.btn with
  | none => false
  | some b => decide (Listener.themeToggle ∈ b.clickListeners)

/-- The stored preference and the root attribute agree. -/
def Agree (p : Page) : Prop :=
  p.localStorage.peek key = p.dataTheme

instance (p : Page) : Decidable (Agree p) := by
  unfold Agree; infer_instance

/-! ## Sample pages -/

/-- A page with a button, nothing stored and no `data-theme` attribute. -/
def freshPage (mm : Option (String → Bool)) : Page :=
  { dataTheme := none
    btn := some { textContent := "Тема", clickListeners := [] }
    localStorage := { items := [], calls := [] }
    matchMedia := mm }

/-- A page without the button, with the given stored entries. -/
def bareBtnlessPage (items : List (String × String)) (attr : Option String) : Page :=
  { dataTheme := attr
    btn := none
    localStorage := { items := items, calls := [] }
    matchMedia := some (fun _ => true) }

/-- A page with a button and the given stored entries and attribute. -/
def pageWith (items : List (String × String)) (attr : Option String) : Page :=
  { dataTheme := attr
    btn := some { textContent := "Тема", clickListeners := [] }
    localStorage := { items := items, calls := [] }
    matchMedia := some (fun _ => true) }

/-! ## Basic facts about the store -/

theorem lookupItem_writeItem_same (l : List (String × String)) (k v : String) :
    lookupItem (writeItem l k v) k = some v := by
  induction l with
  | nil => simp [writeItem, lookupItem]
  | cons e rest ih =>
      obtain ⟨k1, v1⟩ := e
      by_cases h : k1 = k
      · simp [writeItem, lookupItem, h]
      · simp [writeItem, lookupItem, h, ih]

theorem lookupItem_writeItem_other (l : List (String × String)) (k v k2 : String)
    (hk : k2 ≠ k) : lookupItem (writeItem l k v) k2 = lookupItem l k2 := by
  induction l with
  | nil =>
      have hk2 : ¬ k = k2 := fun h => hk h.symm
      simp [writeItem, lookupItem, hk2]
  | cons e rest ih =>
      obtain ⟨k1, v1⟩ := e
      by_cases h : k1 = k
      · have hk2 : ¬ k = k2 := fun h2 => hk h2.symm
        have hk3 : ¬ k1 = k2 := fun h3 => hk2 (h ▸ h3)
        simp [writeItem, lookupItem, h, hk2]
      · by_cases h3 : k1 = k2
        · subst h3
          simp [writeItem, lookupItem, h]
        · simp [writeItem, lookupItem, h, h3, ih]

theorem peek_setItem_same (ls : LocalStorage) (k v : String) :
    (ls.setItem k v).peek k = some v := by
  simp [LocalStorage.setItem, LocalStorage.peek, lookupItem_writeItem_same]

theorem peek_setItem_other (ls : LocalStorage) (k v k2 : String) (hk : k2 ≠ k) :
    (ls.setItem k v).peek k2 = ls.peek k2 := by
  simp [LocalStorage.setItem, LocalStorage.peek, lookupItem_writeItem_other _ _ _ _ hk]

/-! ## Basic facts about the script -/

theorem apply_dataTheme (p : Page) (theme : String) :
    (apply p theme).dataTheme = some theme := by
  unfold apply
  cases hb : p.btn <;> simp [hb]

theorem apply_localStorage (p : Page) (theme : String) :
    (apply p theme).localStorage = p.localStorage := by
  unfold apply
  cases hb : p.btn <;> simp [hb]

theorem apply_matchMedia (p : Page) (theme : String) :
    (apply p theme).matchMedia = p.matchMedia := by
  unfold apply
  cases hb : p.btn <;> simp [hb]

theorem apply_btn (p : Page) (theme : String) :
    (apply p theme).btn =
      p.btn.map (fun b => { b with textContent := if theme = "light" then "☀️ Тема" else "🌙 Тема" }) := by
  unfold apply
  cases hb : p.btn <;> simp [hb]

theorem toggle_dataTheme (p : Page) :
    (toggle p).dataTheme =
      some (if orElse p.dataTheme "dark" = "dark" then "light" else "dark") := by
  simp [toggle, apply_dataTheme]

theorem toggle_localStorage (p : Page) :
    (toggle p).localStorage =
      p.localStorage.setItem key (if orElse p.dataTheme "dark" = "dark" then "light" else "dark") := by
  simp [toggle, apply_localStorage]

theorem toggle_btn (p : Page) :
    (toggle p).btn =
      p.btn.map (fun b => { b with textContent :=
        if (if orElse p.dataTheme "dark" = "dark" then "light" else "dark") = "light"
        then "☀️ Тема" else "🌙 Тема" }) := by
  simp [toggle, apply_btn]

theorem main_dataTheme (p : Page) : (main p).dataTheme = some (initial p) := by
  have h : ∀ q : Page, ∀ t : String,
      (match (apply q t).btn with
        | some b => ({ (apply q t) with btn := some { b with clickListeners := b.clickListeners ++ [Listener.themeToggle] } } : Page)
        | none => apply q t).dataTheme = some t := by
    intro q t
    cases hb : (apply q t).btn <;> simp [apply_dataTheme]
  simpa [main, initial, prefersLight, LocalStorage.getItem] using h _ _

theorem main_localStorage (p : Page) :
    (main p).localStorage = (p.localStorage.getItem key).2 := by
  have h : ∀ q : Page, ∀ t : String,
      (match (apply q t).btn with
        | some b => ({ (apply q t) with btn := some { b with clickListeners := b.clickListeners ++ [Listener.themeToggle] } } : Page)
        | none => apply q t).localStorage = q.localStorage := by
    intro q t
    cases hb : (apply q t).btn <;> simp [apply_localStorage]
  simpa [main, LocalStorage.getItem] using h _ _

theorem main_btn (p : Page) :
    (main p).btn =
      p.btn.map (fun b =>
        { textContent := if initial p = "light" then "☀️ Тема" else "🌙 Тема"
          clickListeners := b.clickListeners ++ [Listener.themeToggle] }) := by
  have h : ∀ q : Page, ∀ t : String,
      (match (apply q t).btn with
        | some b => ({ (apply q t) with btn := some { b with clickListeners := b.clickListeners ++ [Listener.themeToggle] } } : Page)
        | none => apply q t).btn =
        q.btn.map (fun b =>
          { textContent := if t = "light" then "☀️ Тема" else "🌙 Тема"
            clickListeners := b.clickListeners ++ [Listener.themeToggle] }) := by
    intro q t
    have hb := apply_btn q t
    cases hq : q.btn <;> simp [hq] at hb <;> simp [hb]
  simpa [main, initial, prefersLight, LocalStorage.getItem] using h _ _

theorem orElse_mem (x : Option String) :
    (if orElse x "dark" = "dark" then "light" else "dark") = "light" ↔
      (x = some "dark" ∨ x = none ∨ x = some "") := by
  cases x with
  | none => simp [orElse]
  | some s =>
      by_cases h1 : s = ""
      · simp [orElse, h1]
      · by_cases h2 : s = "dark"
        · simp [orElse, h2]
        · simp [orElse, h1, h2]

theorem initial_of_peek (p : Page) :
    initial p = orElse (p.localStorage.peek key)
      (if truthy (prefersLight p) then "light" else "dark") := by
  simp [initial, LocalStorage.getItem, LocalStorage.peek]

theorem iterate_toggle_succ (n : Nat) (p : Page) :
    toggle^[n + 1] p = toggle (toggle^[n] p) :=
  Function.iterate_succ_apply' toggle n p

theorem agree_toggle (p : Page) : Agree (toggle p) := by
  unfold Agree
  rw [toggle_localStorage, toggle_dataTheme, peek_setItem_same]

/-! ## Startup -/

/-- C1: when the store holds `v` under `"app-theme"` and `v` is `"dark"` or
`"light"`, then, whatever the platform signal and whether or not the button
exists, the initial theme is `v` and the root `data-theme` attribute after
startup is `v`. -/
theorem startup_honours_stored (p : Page) (v : String)
    (hv : v = "dark" ∨ v = "light") (hs : p.localStorage.peek key = some v) :
    initial p = v ∧ (main p).dataTheme = some v := by
  have hi : initial p = v := by
    rw [initial_of_peek, hs]
    rcases hv with rfl | rfl <;> simp [orElse]
  exact ⟨hi, by rw [main_dataTheme, hi]⟩

/-- Instance of C1: `"dark"` is stored, the platform prefers light, and the
page starts dark. -/
theorem startup_honours_stored_witness :
    initial (pageWith [("app-theme", "dark")] none) = "dark" ∧
      (main (pageWith [("app-theme", "dark")] none)).dataTheme = some "dark" :=
  startup_honours_stored (pageWith [("app-theme", "dark")] none) "dark"
    (Or.inl rfl) (by decide)

/-- C2: with nothing stored under `"app-theme"`, the initial theme is
`"light"` when `window.matchMedia` exists and the light query matches, and
`"dark"` when the query does not match or `window.matchMedia` is missing. -/
theorem startup_fallback (p : Page) (hs : p.localStorage.peek key = none) :
    (∀ f, p.matchMedia = some f → f "(prefers-color-scheme: light)" = true →
        initial p = "light") ∧
    (∀ f, p.matchMedia = some f → f "(prefers-color-scheme: light)" = false →
        initial p = "dark") ∧
    (p.matchMedia = none → initial p = "dark") := by
  refine ⟨?_, ?_, ?_⟩
  · intro f hf hm
    simp [initial_of_peek, hs, orElse, prefersLight, hf, truthy, hm]
  · intro f hf hm
    simp [initial_of_peek, hs, orElse, prefersLight, hf, truthy, hm]
  · intro hf
    simp [initial_of_peek, hs, orElse, prefersLight, hf, truthy]

/-- Instance of C2: nothing stored, the light query matches, the initial
theme is `"light"`. -/
theorem startup_fallback_witness :
    initial (freshPage (some (fun _ => true))) = "light" :=
  (startup_fallback (freshPage (some (fun _ => true))) (by decide)).1
    (fun _ => true) rfl rfl

/-! ## Toggle -/

/-- C3: from a root attribute `"dark"` one toggle sets the attribute to
`"light"` and stores `"light"`, a second one sets it back to `"dark"` and
stores `"dark"`; symmetrically from `"light"`; so two toggles restore an
attribute that is `"dark"` or `"light"`. -/
theorem toggle_flips_round_trip (p : Page)
    (h : p.dataTheme = some "dark" ∨ p.dataTheme = some "light") :
    (toggle (toggle p)).dataTheme = p.dataTheme ∧
    (p.dataTheme = some "dark" →
      (toggle p).dataTheme = some "light" ∧
      (toggle p).localStorage.peek key = some "light" ∧
      (toggle (toggle p)).dataTheme = some "dark" ∧
      (toggle (toggle p)).localStorage.peek key = some "dark") ∧
    (p.dataTheme = some "light" →
      (toggle p).dataTheme = some "dark" ∧
      (toggle p).localStorage.peek key = some "dark" ∧
      (toggle (toggle p)).dataTheme = some "light" ∧
      (toggle (toggle p)).localStorage.peek key = some "light") := by
  have hd : p.dataTheme = some "dark" →
      (toggle p).dataTheme = some "light" ∧
      (toggle p).localStorage.peek key = some "light" ∧
      (toggle (toggle p)).dataTheme = some "dark" ∧
      (toggle (toggle p)).localStorage.peek key = some "dark" := by
    intro h1
    have a1 : (toggle p).dataTheme = some "light" := by
      rw [toggle_dataTheme, h1]; simp [orElse]
    have a2 : (toggle (toggle p)).dataTheme = some "dark" := by
      rw [toggle_dataTheme, a1]; simp [orElse]
    have b1 := agree_toggle p
    have b2 := agree_toggle (toggle p)
    unfold Agree at b1 b2
    exact ⟨a1, b1.trans a1, a2, b2.trans a2⟩
  have hl : p.dataTheme = some "light" →
      (toggle p).dataTheme = some "dark" ∧
      (toggle p).localStorage.peek key = some "dark" ∧
      (toggle (toggle p)).dataTheme = some "light" ∧
      (toggle (toggle p)).localStorage.peek key = some "light" := by
    intro h1
    have a1 : (toggle p).dataTheme = some "dark" := by
      rw [toggle_dataTheme, h1]; simp [orElse]
    have a2 : (toggle (toggle p)).dataTheme = some "light" := by
      rw [toggle_dataTheme, a1]; simp [orElse]
    have b1 := agree_toggle p
    have b2 := agree_toggle (toggle p)
    unfold Agree at b1 b2
    exact ⟨a1, b1.trans a1, a2, b2.trans a2⟩
  refine ⟨?_, hd, hl⟩
  rcases h with h1 | h1
  · rw [(hd h1).2.2.1, h1]
  · rw [(hl h1).2.2.1, h1]

/-- Instance of C3: a page whose attribute is `"dark"` goes to `"light"` and
back, the store following each time. -/
theorem toggle_flips_round_trip_witness :
    (toggle (pageWith [] (some "dark"))).dataTheme = some "light" ∧
    (toggle (pageWith [] (some "dark"))).localStorage.peek key = some "light" ∧
    (toggle (toggle (pageWith [] (some "dark")))).dataTheme = some "dark" ∧
    (toggle (toggle (pageWith [] (some "dark")))).localStorage.peek key = some "dark" :=
  (toggle_flips_round_trip (pageWith [] (some "dark")) (Or.inl rfl)).2.1 rfl

/-- C4: after a toggle, from any prior attribute and any prior store, the
value stored under `"app-theme"` equals the root attribute; hence the two
agree in every state reached from startup by one or more toggles. -/
theorem agreement_after_toggle :
    (∀ p : Page, (toggle p).localStorage.peek key = (toggle p).dataTheme) ∧
    (∀ (p : Page) (n : Nat),
      (toggle^[n + 1] (main p)).localStorage.peek key =
        (toggle^[n + 1] (main p)).dataTheme) := by
  refine ⟨fun p => agree_toggle p, fun p n => ?_⟩
  rw [iterate_toggle_succ]
  exact agree_toggle _

/-! ## Apply -/

/-- C5: after `apply(theme)` the root attribute is the theme (for every
theme, so for `"dark"` and for `"light"`); an existing button reads
`"☀️ Тема"` when the theme is `"light"` and `"🌙 Тема"` when it is `"dark"`;
without a button the attribute is still set, the label step is skipped and
the rest of the page is untouched. -/
theorem apply_postcondition (p : Page) (theme : String) :
    (apply p theme).dataTheme = some theme ∧
    (∀ b, p.btn = some b → theme = "light" →
      (apply p theme).btn = some { b with textContent := "☀️ Тема" }) ∧
    (∀ b, p.btn = some b → theme = "dark" →
      (apply p theme).btn = some { b with textContent := "🌙 Тема" }) ∧
    (p.btn = none →
      apply p theme = { p with dataTheme := some theme }) := by
  refine ⟨apply_dataTheme p theme, ?_, ?_, ?_⟩
  · intro b hb hl
    rw [apply_btn, hb, hl]; simp
  · intro b hb hd
    rw [apply_btn, hb, hd]; simp
  · intro hb
    unfold apply
    simp [hb]

/-- Instance of C5: applying `"light"` on a page with a button. -/
theorem apply_postcondition_witness :
    (apply (freshPage none) "light").dataTheme = some "light" ∧
    (apply (freshPage none) "light").btn =
      some { textContent := "☀️ Тема", clickListeners := [] } :=
  ⟨(apply_postcondition (freshPage none) "light").1,
   (apply_postcondition (freshPage none) "light").2.1
      { textContent := "Тема", clickListeners := [] } rfl rfl⟩

/-! ## Availability of the toggle -/

/-- C6, refuted as stated: on a page without the button (nothing stored, the
platform prefers light) the script registers no toggle; startup sets the
attribute from the fallback, and a click afterwards changes neither the
attribute nor the store, which still holds nothing. -/
theorem toggle_unavailable_without_button :
    (bareBtnlessPage [] (some "dark")).btn = none ∧
    toggleAvailable (main (bareBtnlessPage [] (some "dark"))) = false ∧
    (click (main (bareBtnlessPage [] (some "dark")))).dataTheme =
      (main (bareBtnlessPage [] (some "dark"))).dataTheme ∧
    (click (main (bareBtnlessPage [] (some "dark")))).localStorage.peek key = none := by
  decide

/-- C6, amended: the toggle is available after startup exactly when the
button exists, and a click on a button that had no listener before runs the
toggle once; on a page without the button no listener is registered and any
number of clicks leaves the page as startup left it. -/
theorem toggle_available_iff_button (p : Page) :
    toggleAvailable (main p) = p.btn.isSome ∧
    (∀ b, p.btn = some b → b.clickListeners = [] →
      click (main p) = toggle (main p)) ∧
    (p.btn = none → ∀ n : Nat, click^[n] (main p) = main p) := by
  refine ⟨?_, ?_, ?_⟩
  · unfold toggleAvailable
    rw [main_btn]
    cases hb : p.btn <;> simp
  · intro b hb hl
    unfold click
    rw [main_btn, hb]
    simp [hl, runListener]
  · intro hb n
    have hm : (main p).btn = none := by rw [main_btn, hb]; rfl
    have hc : click (main p) = main p := by
      unfold click
      rw [hm]
    exact Function.iterate_fixed hc n

/-- Instance of amended C6: without the button the toggle is unavailable and
a click changes nothing; with the button a click is one toggle. -/
theorem toggle_available_iff_button_witness :
    toggleAvailable (main (bareBtnlessPage [] (some "dark"))) = false ∧
    click^[1] (main (bareBtnlessPage [] (some "dark"))) =
      main (bareBtnlessPage [] (some "dark")) ∧
    click (main (pageWith [] none)) = toggle (main (pageWith [] none)) :=
  ⟨(toggle_available_iff_button (bareBtnlessPage [] (some "dark"))).1,
   (toggle_available_iff_button (bareBtnlessPage [] (some "dark"))).2.2 rfl 1,
   (toggle_available_iff_button (pageWith [] none)).2.1
      { textContent := "Тема", clickListeners := [] } rfl rfl⟩

/-! ## Validity of the applied theme -/

/-- C7, refuted as stated: with `"blue"` stored and a platform that prefers
light, the attribute after startup is `"blue"`: neither `"dark"` nor
`"light"`, and not the `"light"` that an absent value gives on the same
page. -/
theorem startup_keeps_invalid_stored :
    (main (pageWith [("app-theme", "blue")] none)).dataTheme = some "blue" ∧
    (main (pageWith [("app-theme", "blue")] none)).dataTheme ≠ some "dark" ∧
    (main (pageWith [("app-theme", "blue")] none)).dataTheme ≠ some "light" ∧
    (main (pageWith [] none)).dataTheme = some "light" := by
  decide

/-- C7, amended: a non-empty stored string is applied as it is; an absent or
empty stored value falls back to the platform signal; so the attribute after
startup is `"dark"` or `"light"` whenever the stored value is absent, empty,
`"dark"` or `"light"`. -/
theorem startup_theme_validity (p : Page) :
    (∀ v, p.localStorage.peek key = some v → v ≠ "" →
      (main p).dataTheme = some v) ∧
    (p.localStorage.peek key = none ∨ p.localStorage.peek key = some "" →
      (main p).dataTheme =
        some (if truthy (prefersLight p) then "light" else "dark")) ∧
    (p.localStorage.peek key = none ∨ p.localStorage.peek key = some "" ∨
      p.localStorage.peek key = some "dark" ∨ p.localStorage.peek key = some "light" →
      (main p).dataTheme = some "dark" ∨ (main p).dataTheme = some "light") := by
  refine ⟨?_, ?_, ?_⟩
  · intro v hs hv
    rw [main_dataTheme, initial_of_peek, hs]
    simp [orElse, hv]
  · intro hs
    rw [main_dataTheme, initial_of_peek]
    rcases hs with hs | hs <;> rw [hs] <;> simp [orElse]
  · intro hs
    rw [main_dataTheme, initial_of_peek]
    rcases hs with hs | hs | hs | hs <;> rw [hs] <;> simp [orElse]

/-- Instance of amended C7: an empty stored string falls back to the
platform signal. -/
theorem startup_theme_validity_witness :
    (main (pageWith [("app-theme", "")] none)).dataTheme = some "light" :=
  (startup_theme_validity (pageWith [("app-theme", "")] none)).2.1 (Or.inr (by decide))

/-! ## Lifecycle of the store -/

/-- C8: startup leaves the entries of the store unchanged and makes exactly
one call, the read of `"app-theme"`; `apply` makes no call; a toggle makes
exactly one call, a write to `"app-theme"`, which leaves every other key as
it was; and no operation removes a key. -/
theorem store_lifecycle (p : Page) :
    (main p).localStorage.items = p.localStorage.items ∧
    (main p).localStorage.calls = p.localStorage.calls ++ [StorageCall.getItem "app-theme"] ∧
    (p.localStorage.peek key = none → (main p).localStorage.peek key = none) ∧
    (∀ theme, (apply p theme).localStorage = p.localStorage) ∧
    (∃ v, (toggle p).localStorage.calls =
        p.localStorage.calls ++ [StorageCall.setItem "app-theme" v] ∧
      (toggle p).localStorage.items = writeItem p.localStorage.items "app-theme" v) ∧
    (∀ k, k ≠ "app-theme" →
      (toggle p).localStorage.peek k = p.localStorage.peek k) ∧
    (∀ k, (p.localStorage.peek k).isSome = true →
      ((main p).localStorage.peek k).isSome = true ∧
      ((toggle p).localStorage.peek k).isSome = true ∧
      ∀ theme, ((apply p theme).localStorage.peek k).isSome = true) := by
  have hm : (main p).localStorage.items = p.localStorage.items := by
    rw [main_localStorage]; rfl
  refine ⟨hm, ?_, ?_, ?_, ?_, ?_, ?_⟩
  · rw [main_localStorage]; rfl
  · intro h
    unfold LocalStorage.peek at h ⊢
    rw [hm]; exact h
  · intro theme
    exact apply_localStorage p theme
  · refine ⟨if orElse p.dataTheme "dark" = "dark" then "light" else "dark", ?_, ?_⟩
    · rw [toggle_localStorage]; rfl
    · rw [toggle_localStorage]; rfl
  · intro k hk
    rw [toggle_localStorage]
    exact peek_setItem_other _ _ _ _ hk
  · intro k hk
    refine ⟨?_, ?_, ?_⟩
    · unfold LocalStorage.peek at hk ⊢
      rw [hm]; exact hk
    · rw [toggle_localStorage]
      by_cases h : k = key
      · rw [h, peek_setItem_same]; rfl
      · rw [peek_setItem_other _ _ _ _ h]; exact hk
    · intro theme
      rw [apply_localStorage]; exact hk

/-- Instance of C8: a toggle on a page holding another key keeps that key. -/
theorem store_lifecycle_witness :
    (toggle (pageWith [("lang", "ru")] none)).localStorage.peek "lang" = some "ru" :=
  (store_lifecycle (pageWith [("lang", "ru")] none)).2.2.2.2.2.1 "lang" (by decide)

/-! ## Toggle on unset and invalid attributes -/

/-- C9: when the root element has no `data-theme` attribute or an empty one,
the toggle stores `"light"` under `"app-theme"` and applies `"light"`. -/
theorem toggle_default_unset (p : Page)
    (h : p.dataTheme = none ∨ p.dataTheme = some "") :
    (toggle p).localStorage.calls =
      p.localStorage.calls ++ [StorageCall.setItem "app-theme" "light"] ∧
    (toggle p).localStorage.peek key = some "light" ∧
    toggle p = apply { p with localStorage := p.localStorage.setItem key "light" } "light" ∧
    (toggle p).dataTheme = some "light" := by
  have hn : (if orElse p.dataTheme "dark" = "dark" then "light" else "dark") = "light" :=
    (orElse_mem p.dataTheme).2 (Or.inr h)
  have a1 : (toggle p).dataTheme = some "light" := by
    rw [toggle_dataTheme, hn]
  refine ⟨?_, (agree_toggle p).trans a1, ?_, a1⟩
  · rw [toggle_localStorage, hn]; rfl
  · unfold toggle
    simp only [hn]

/-- Instance of C9: a page without the attribute. -/
theorem toggle_default_unset_witness :
    (toggle (freshPage none)).localStorage.peek key = some "light" ∧
    (toggle (freshPage none)).dataTheme = some "light" :=
  ⟨(toggle_default_unset (freshPage none) (Or.inl rfl)).2.1,
   (toggle_default_unset (freshPage none) (Or.inl rfl)).2.2.2⟩

/-- C10: for every prior root attribute, the value the toggle stores and
applies is one value `v`, `"dark"` or `"light"`; it is `"light"` exactly when
the prior attribute is `"dark"`, unset or empty, and `"dark"` for every other
prior attribute. -/
theorem toggle_normalises (p : Page) :
    ∃ v, (v = "dark" ∨ v = "light") ∧
      (toggle p).localStorage.calls =
        p.localStorage.calls ++ [StorageCall.setItem "app-theme" v] ∧
      (toggle p).localStorage.peek key = some v ∧
      (toggle p).dataTheme = some v ∧
      (v = "light" ↔
        (p.dataTheme = some "dark" ∨ p.dataTheme = none ∨ p.dataTheme = some "")) ∧
      (v = "dark" ↔
        ¬ (p.dataTheme = some "dark" ∨ p.dataTheme = none ∨ p.dataTheme = some "")) := by
  refine ⟨if orElse p.dataTheme "dark" = "dark" then "light" else "dark", ?_, ?_, ?_, ?_, ?_, ?_⟩
  · by_cases h : orElse p.dataTheme "dark" = "dark" <;> simp [h]
  · rw [toggle_localStorage]; rfl
  · rw [toggle_localStorage, peek_setItem_same]
  · exact toggle_dataTheme p
  · exact orElse_mem p.dataTheme
  · rw [← orElse_mem p.dataTheme]
    by_cases h : orElse p.dataTheme "dark" = "dark" <;> simp [h]

end ThemeJs
